import Mathlib

/-!
Verification of the CEP-to-weather lookup pipeline (repository `otel-go`).

The repository is two Go services:
  * svc-a (edge forwarder, `main.go`): validates a CEP and forwards the
    request to svc-b, relaying svc-b's response verbatim;
  * svc-b (internal orchestrator): `handlers` (entry points, validation and
    the error-to-status mapping), `ViaCEPService.GetCityByCEP` (geocoding leg)
    and `WeatherAPIService.GetTemperature` (weather leg with retry).

The Go code is shallowly embedded here.  Conventions of the embedding:
  * `float64` values are modelled as exact rationals (`ℚ`); the Go conversion
    `int(x)` (truncation toward zero) is `goTrunc`;
  * network effects are modelled by passing the environment's behaviour
    explicitly (one constructor per syntactic outcome of each `http` call);
  * `len(s)` on a Go string is the UTF-8 byte length, hence
    `String.utf8ByteSize`; `for _, c := range s` iterates runes, hence
    `String.data`;
  * `strings.ReplaceAll(s, p, "")` for the one-character patterns `"-"` and
    `"."` is removal of that character, embedded as a `List.filter` on the
    rune list (for single-rune patterns the two are the same function).
-/

namespace OtelGo

/-! ## Shared string plumbing -/

/-- Go `strings.ReplaceAll(cep, "-", "")` followed by
`strings.ReplaceAll(cep, ".", "")`: both patterns are single runes, so the
composite removes every `'-'` and `'.'` from the string.  This normalisation
appears verbatim in `GetWeatherByCEP`, `GetWeatherByCEPPost` (handlers) and
`GetCityByCEP` (ViaCEP service). -/
def stripCEP (s : String) : String :=
  ⟨s.data.filter fun c => !(c == '-' || c == '.')⟩

/-! ## Internal service entry points (svc-b, `handlers/weather_handler.go`) -/

/-- Observable effect of `processWeatherRequest` up to its first network call:
either it writes an error response (status, message of the JSON error body)
and returns, or it invokes `cepService.GetCityByCEP` with the given string. -/
inductive InternalStep where
  | errorResponse (status : Nat) (msg : String)
  | callsCEPService (cep : String)
  deriving DecidableEq

/-- Embedding of `processWeatherRequest` (svc-b handler) up to its first
network call.  Source: `if len(cep) != 8 { respondWithError(w, 422,
"invalid zipcode"); return }` and then `h.cepService.GetCityByCEP(ctx, cep)`.
Note the source checks only the length; it never checks the characters. -/
def processWeatherRequest (cep : String) : InternalStep :=
  if cep.utf8ByteSize ≠ 8 then .errorResponse 422 "invalid zipcode"
  else .callsCEPService cep

/-- Embedding of the `GET /weather/{cep}` handler `GetWeatherByCEP`: the raw
path parameter is normalised (`-` and `.` removed) and handed to
`processWeatherRequest`.  The `POST` handler `GetWeatherByCEPPost` performs
exactly the same normalisation on the decoded body field. -/
def GetWeatherByCEP (raw : String) : InternalStep :=
  processWeatherRequest (stripCEP raw)

/-- Claim-side validator, written from the specification's words (§4.1,
§8): the stripped result must have length exactly 8 and every character must
be a decimal digit. -/
def specValidatorAccepts (raw : String) : Bool :=
  (stripCEP raw).length = 8 && (stripCEP raw).data.all Char.isDigit

/-! ## Edge service validation and forwarding (svc-a, `main.go`) -/

/-- Embedding of svc-a's `isValidCEP`: rejects unless `len(cep) == 8`
(byte length) and every rune is in `'0'..'9'`.  Note: no stripping of
`-`/`.` happens in svc-a. -/
def isValidCEP (cep : String) : Bool :=
  if cep.utf8ByteSize ≠ 8 then false
  else cep.data.all fun c => !(decide (c < '0') || decide ('9' < c))

/-! ## Geocoding leg (svc-b, `services/viacep_service.go`) -/

/-- Outcome of reading and decoding the ViaCEP response body, as seen by
`GetCityByCEP` after a response was received: `io.ReadAll` may fail,
`json.Unmarshal` may fail, or a record with the `erro` flag and the
`localidade` field is produced. -/
inductive GeoBody where
  | readError (msg : String)
  | parseError (msg : String)
  | parsed (erro : Bool) (localidade : String)
  deriving DecidableEq

/-- Behaviour of the single upstream HTTP interaction of `GetCityByCEP`:
`http.NewRequestWithContext` may fail, `client.Do` may fail, or a response
with a status code and a body arrives. -/
inductive GeoOutcome where
  | reqError (msg : String)
  | doError (msg : String)
  | response (statusCode : Nat) (body : GeoBody)
  deriving DecidableEq

/-- Error values `GetCityByCEP` can return.  `invalidZip`, `notFound` and
`internal` are the sentinels `ErrInvalidZipCode`, `ErrZipCodeNotFound` and
`ErrInternalServer`; the two `Failed` constructors are the `fmt.Errorf`
wrappings of transport errors, which match no sentinel under `errors.Is`. -/
inductive CEPErr where
  | invalidZip
  | notFound
  | internal
  | createReqFailed (msg : String)
  | sendReqFailed (msg : String)
  deriving DecidableEq

/-- Embedding of `ViaCEPService.GetCityByCEP`.  The function re-strips the
incoming string, rejects unless the byte length is 8, and classifies the
upstream interaction exactly in source order: transport errors are wrapped,
a non-200 status yields `ErrZipCodeNotFound` before the body is read, read
and decode failures yield `ErrInternalServer`, the `erro` flag and an empty
`localidade` yield `ErrZipCodeNotFound`, and otherwise the `localidade`
field is returned. -/
def GetCityByCEP (cep : String) (o : GeoOutcome) : Except CEPErr String :=
  let c := stripCEP cep
  if c.utf8ByteSize ≠ 8 then .error .invalidZip
  else
    match o with
    | .reqError m => .error (.createReqFailed m)
    | .doError m => .error (.sendReqFailed m)
    | .response statusCode body =>
      if statusCode ≠ 200 then .error .notFound
      else
        match body with
        | .readError _ => .error .internal
        | .parseError _ => .error .internal
        | .parsed erro localidade =>
          if erro then .error .notFound
          else if localidade = "" then .error .notFound
          else .ok localidade

/-- Embedding of the handler's `handleCEPError`: the `errors.Is` switch on
the sentinel errors, every other error falling to the default branch.
Result: HTTP status and the message of the JSON error body. -/
def handleCEPError : CEPErr → Nat × String
  | .invalidZip => (422, "invalid zipcode")
  | .notFound => (404, "can not find zipcode")
  | _ => (500, "internal server error")

/-- Abstraction of a geocoding result as the claim states it: a 404
`can not find zipcode` response, a 500 response, a success carrying the
city, or anything else. -/
inductive GeoClass where
  | notFound404
  | internal500
  | success (city : String)
  | other
  deriving DecidableEq

/-- Maps what `GetCityByCEP` returned through `handleCEPError` to the
abstraction used by the classification claim. -/
def geoClass : Except CEPErr String → GeoClass
  | .ok city => .success city
  | .error e =>
    match handleCEPError e with
    | (404, "can not find zipcode") => .notFound404
    | (500, _) => .internal500
    | _ => .other

/-- Claim-side classification of geocoding outcomes, written from the
specification's words: non-success HTTP status, the explicit `erro` flag and
an empty city field each yield NotFound (404, `can not find zipcode`); a
transport error or a body that fails to read or parse yields
InternalFailure (500); otherwise the city field is the success value. -/
def geoSpecClass : GeoOutcome → GeoClass
  | .reqError _ => .internal500
  | .doError _ => .internal500
  | .response statusCode body =>
    if statusCode ≠ 200 then .notFound404
    else
      match body with
      | .readError _ => .internal500
      | .parseError _ => .internal500
      | .parsed erro city =>
        if erro then .notFound404
        else if city = "" then .notFound404
        else .success city

/-! ## Weather leg (svc-b, `services/weather_service.go`) -/

/-- The `models.Temperature` struct; `float64` fields modelled as `ℚ`. -/
structure Temperature where
  tempC : ℚ
  tempF : ℚ
  tempK : ℚ
  deriving DecidableEq

/-- The decoded `WeatherAPIResponse`: the `current.temp_c` and
`current.temp_f` numbers and the `error.code` / `error.message` pair (Go
zero values when the JSON carries no such field). -/
structure WeatherAPIResponse where
  tempC : ℚ
  tempF : ℚ
  errCode : Int
  errMsg : String
  deriving DecidableEq

/-- Result of running `json.NewDecoder(resp.Body).Decode` on a received
response body. -/
inductive WeatherBody where
  | decodeError (msg : String)
  | decoded (w : WeatherAPIResponse)
  deriving DecidableEq

/-- A received weather upstream HTTP response: status code plus body. -/
structure WeatherResp where
  statusCode : Nat
  body : WeatherBody
  deriving DecidableEq

/-- Behaviour of the environment at one iteration of the retry loop:
`http.NewRequestWithContext` fails, `client.Do` fails, or `client.Do`
returns a response. -/
inductive AttemptOutcome where
  | reqError (msg : String)
  | doError (msg : String)
  | doResp (r : WeatherResp)
  deriving DecidableEq

/-- Whether the attempt outcome delivers a response. -/
def AttemptOutcome.isResp : AttemptOutcome → Bool
  | .doResp _ => true
  | _ => false

/-- Go's `float64` → `int` conversion on an exact rational: truncation
toward zero (the floor for non-negative arguments, `-⌊-q⌋`, i.e. the
ceiling, for negative ones). -/
def goTrunc (q : ℚ) : Int :=
  if 0 ≤ q then ⌊q⌋ else -⌊-q⌋

/-- The `factor` accumulator of the source's `round`: starts at 1 and is
multiplied by 10 once per decimal place. -/
def goFactor : Nat → ℚ
  | 0 => 1
  | n + 1 => goFactor n * 10

/-- Embedding of the source's `round`:
`float64(int(num*factor+0.5)) / factor`. -/
def round (num : ℚ) (places : Nat) : ℚ :=
  let factor := goFactor places
  (goTrunc (num * factor + 0.5) : ℚ) / factor

/-- Claim-side rounding, written from the specification's words:
round-half-up to 2 decimal places, i.e. the nearest multiple of 1/100 with
halves rounded up. -/
def roundHalfUp (x : ℚ) : ℚ :=
  (⌊x * 100 + 1 / 2⌋ : ℚ) / 100

/-- The `maxRetries := 3` constant of `GetTemperature`. -/
def maxRetries : Nat := 3

/-- One pass of the retry loop of `GetTemperature`, carrying the loop state:
remaining iterations (`maxRetries - attempt + 1`), the outer `resp` and
`err` variables, and the count of `client.Do` invocations (the last is not a
program variable; it counts the network calls for the claims about them).

Source fidelity notes:
  * `req, err := http.NewRequestWithContext(...)` declares a NEW `err`
    inside the loop body, shadowing the outer `err`;
  * `resp, err = s.client.Do(req)` therefore assigns the outer `resp` but
    the SHADOWED inner `err`;
  * consequently no iteration ever writes the outer `err` (`errOuter`
    below), and the loop breaks when the inner `err` is nil, i.e. exactly
    when `client.Do` returned a response. -/
def retryLoop (b : Nat → AttemptOutcome) :
    Nat → Nat → Option WeatherResp → Option String → Nat →
    Option WeatherResp × Option String × Nat
  | 0, _, resp, errOuter, calls => (resp, errOuter, calls)
  | fuel + 1, attempt, resp, errOuter, calls =>
    match b attempt with
    | .reqError _ =>
      -- creating the request failed: log, sleep, continue (no Do call)
      retryLoop b fuel (attempt + 1) resp errOuter calls
    | .doError _ =>
      -- client.Do returned (nil, err): outer resp becomes nil, inner err
      -- is non-nil so the loop continues
      retryLoop b fuel (attempt + 1) none errOuter (calls + 1)
    | .doResp r =>
      -- client.Do returned a response: inner err is nil, break
      (some r, errOuter, calls + 1)

/-- The whole retry loop: `attempt` runs from 1 to `maxRetries`, outer
`resp` and `err` start as nil, no `client.Do` call has happened yet. -/
def weatherLoop (b : Nat → AttemptOutcome) :
    Option WeatherResp × Option String × Nat :=
  retryLoop b maxRetries 1 none none 0

/-- Error values `GetTemperature` can return.  `apiKeyNotConfigured` and
`cityNotFound` are the sentinels `ErrAPIKeyNotConfigured` and
`ErrCityNotFound`; `weatherAPIFailed` is `ErrWeatherAPIFailed` wrapped
together with the upstream message; `allRequestsFailed` and `decodeFailed`
are plain `fmt.Errorf` wrappings. -/
inductive WeatherErr where
  | apiKeyNotConfigured
  | allRequestsFailed (msg : String)
  | decodeFailed (msg : String)
  | cityNotFound
  | weatherAPIFailed (msg : String)
  deriving DecidableEq

/-- Result of one `GetTemperature` invocation: a Go `(nil, err)` return, a
`(*models.Temperature, nil)` return, or a runtime panic. -/
inductive GetTempResult where
  | ok (t : Temperature)
  | err (e : WeatherErr)
  | panicked
  deriving DecidableEq

/-- Embedding of `WeatherAPIService.GetTemperature`.  The first component is
the function's outcome, the second the number of `client.Do` invocations it
performed.

After the loop the source checks the OUTER `err` (never written, see
`retryLoop`), so that check never fires; it then runs
`defer resp.Body.Close()`, which dereferences a nil `resp` when every
attempt failed — modelled as `panicked`.  When a response was received, the
body is decoded first and the status code checked afterwards, exactly as in
the source. -/
def GetTemperature (apiKey : String) (b : Nat → AttemptOutcome) :
    GetTempResult × Nat :=
  if apiKey = "" then (.err .apiKeyNotConfigured, 0)
  else
    match weatherLoop b with
    | (resp, errOuter, calls) =>
      match errOuter with
      | some m =>
        -- `return nil, fmt.Errorf("all weather API requests failed: %w", err)`
        (.err (.allRequestsFailed m), calls)
      | none =>
        match resp with
        | none => (.panicked, calls)  -- `defer resp.Body.Close()` on nil resp
        | some r =>
          match r.body with
          | .decodeError m => (.err (.decodeFailed m), calls)
          | .decoded w =>
            if r.statusCode ≠ 200 then
              if w.errCode = 1006 then (.err .cityNotFound, calls)
              else (.err (.weatherAPIFailed w.errMsg), calls)
            else
              let tempC := w.tempC
              let tempF := if w.tempF ≠ 0 then w.tempF else tempC * 1.8 + 32
              let tempK := tempC + 273.15
              (.ok ⟨round tempC 2, round tempF 2, round tempK 2⟩, calls)

/-- Embedding of the handler's `handleWeatherError`: the `errors.Is` switch
on the sentinel errors, every other error falling to the default branch. -/
def handleWeatherError : WeatherErr → Nat × String
  | .apiKeyNotConfigured => (500, "weather service configuration error")
  | .cityNotFound => (404, "city not found in weather service")
  | _ => (500, "failed to get weather data")

/-! ## Edge forwarding (svc-a, `main.go`) -/

/-- Behaviour of the environment during `callServiceB`: marshalling the
request body, creating the request or sending it may fail, reading the
response body may fail, or a response (status code and raw body bytes,
modelled as a string of bytes) is obtained. -/
inductive CallBOutcome where
  | marshalError (msg : String)
  | createReqError (msg : String)
  | doError (msg : String)
  | readError (msg : String)
  | response (statusCode : Nat) (body : String)
  deriving DecidableEq

/-- Whether the interaction with svc-b failed before a (status, body) pair
was obtained. -/
def CallBOutcome.isTransportFailure : CallBOutcome → Bool
  | .response _ _ => false
  | _ => true

/-- Embedding of svc-a's `callServiceB`: on any failure an error wrapping
the cause is returned; otherwise the raw response bytes and the status code
are returned unchanged. -/
def callServiceB (o : CallBOutcome) : Except String (String × Nat) :=
  match o with
  | .marshalError m => .error ("failed to marshal request: " ++ m)
  | .createReqError m => .error ("failed to create request: " ++ m)
  | .doError m => .error ("request failed: " ++ m)
  | .readError m => .error ("failed to read response: " ++ m)
  | .response statusCode body => .ok (body, statusCode)

/-- What svc-a writes back to its client: either the raw bytes received from
svc-b, or a JSON error object with the given message (encoded by
`respondWithError`). -/
inductive EdgeBody where
  | bytes (s : String)
  | jsonError (msg : String)
  deriving DecidableEq

/-- Embedding of `HandleWeatherRequest` after the body has been decoded into
a CEP string (method check and JSON decoding of the inbound body are
plumbing above this point): validate with `isValidCEP`, call svc-b, and
either report the transport failure as a 500 or relay status code and body
bytes unchanged. -/
def HandleWeatherRequest (cep : String) (o : CallBOutcome) : Nat × EdgeBody :=
  if !isValidCEP cep then (422, .jsonError "invalid zipcode")
  else
    match callServiceB o with
    | .error e => (500, .jsonError ("error calling service B: " ++ e))
    | .ok (body, statusCode) => (statusCode, .bytes body)

/-! ## Helper lemmas -/

/-- A string whose runes are all outside `{'-', '.'}` is unchanged by the
separator-stripping normalisation. -/
theorem stripCEP_of_no_seps (s : String)
    (h : ∀ c ∈ s.data, c ≠ '-' ∧ c ≠ '.') : stripCEP s = s := by
  have hf : s.data.filter (fun c => !(c == '-' || c == '.')) = s.data := by
    apply List.filter_eq_self.mpr
    intro c hc
    obtain ⟨h1, h2⟩ := h c hc
    simp [h1, h2]
  show (⟨s.data.filter fun c => !(c == '-' || c == '.')⟩ : String) = s
  rw [hf]

/-- Unpacking of a successful `isValidCEP` check: byte length 8 and every
rune within `'0'..'9'`. -/
theorem isValidCEP_spec (s : String) (h : isValidCEP s = true) :
    s.utf8ByteSize = 8 ∧ ∀ c ∈ s.data, ¬(c < '0') ∧ ¬('9' < c) := by
  unfold isValidCEP at h
  by_cases hsize : s.utf8ByteSize = 8
  · refine ⟨hsize, ?_⟩
    rw [if_neg (by simp [hsize])] at h
    intro c hc
    have := List.all_eq_true.mp h c hc
    simpa using this
  · rw [if_pos (by simpa using hsize)] at h
    exact absurd h (by simp)

/-! ## Claim C1 -/

/-- C1, counterexample.  The claim says the internal validation succeeds
exactly when the stripped input is 8 decimal digits, and that every other
string gets a 422 `invalid zipcode` response before any network call.  The
input `"abcdefgh"` refutes it: the claim-side validator rejects it (it has
no digits at all), yet the internal service accepts it and proceeds to call
the geocoding service. -/
theorem C1_counterexample :
    specValidatorAccepts "abcdefgh" = false ∧
    GetWeatherByCEP "abcdefgh" = .callsCEPService "abcdefgh" := by
  constructor
  · decide
  · decide

/-- C1, amended.  The internal service's validation (after stripping `-`
and `.`) checks only that the stripped result has byte length exactly 8 —
the characters are not inspected; exactly the other strings terminate with
a 422 `invalid zipcode` response before any network call is made. -/
theorem C1_internal_validation_length_only (raw : String) :
    GetWeatherByCEP raw =
      if (stripCEP raw).utf8ByteSize = 8
      then InternalStep.callsCEPService (stripCEP raw)
      else InternalStep.errorResponse 422 "invalid zipcode" := by
  unfold GetWeatherByCEP processWeatherRequest
  by_cases h : (stripCEP raw).utf8ByteSize = 8 <;> simp [h]

/-! ## Claim C2 -/

/-- C2, counterexample.  The claim says the edge and internal validations
judge every string identically, both stripping `-`/`.` and then requiring 8
decimal digits.  Both conjunction pairs refute it: `"12345-678"` is rejected
by the edge (no stripping happens there) but accepted and forwarded by the
internal service, and `"abcdefgh"` is rejected by the edge (digit check) but
accepted by the internal service (length-only check). -/
theorem C2_counterexample :
    (isValidCEP "12345-678" = false ∧
      GetWeatherByCEP "12345-678" = .callsCEPService "12345678") ∧
    (isValidCEP "abcdefgh" = false ∧
      GetWeatherByCEP "abcdefgh" = .callsCEPService "abcdefgh") := by
  refine ⟨⟨?_, ?_⟩, ?_, ?_⟩ <;> decide

/-- C2, amended.  The two validators are not equivalent, but edge acceptance
implies internal acceptance: every string the edge forwarder accepts (raw
byte length 8, all runes decimal digits, no stripping) is also accepted by
the internal service's validator (byte length 8 after stripping `-` and
`.`, characters not inspected) and forwarded unchanged to the geocoding
lookup.  The converse fails (see the C2 counterexample). -/
theorem C2_edge_accept_implies_internal_accept (s : String)
    (h : isValidCEP s = true) :
    GetWeatherByCEP s = .callsCEPService s := by
  obtain ⟨hsize, hchar⟩ := isValidCEP_spec s h
  have hstrip : stripCEP s = s := by
    apply stripCEP_of_no_seps
    intro c hc
    obtain ⟨h1, _⟩ := hchar c hc
    constructor <;> rintro rfl <;> exact h1 (by decide)
  unfold GetWeatherByCEP processWeatherRequest
  rw [hstrip]
  simp [hsize]

/-- C2 witness: the amended implication applied at `"12345678"`. -/
theorem C2_witness :
    isValidCEP "12345678" = true ∧
    GetWeatherByCEP "12345678" = .callsCEPService "12345678" :=
  ⟨by decide, C2_edge_accept_implies_internal_accept "12345678" (by decide)⟩

/-! ## Claim C6 -/

/-- C6, confirmed.  For every validated postal code, `GetCityByCEP`
classifies every geocoding outcome exactly as the claim states: a
non-success HTTP status, a parsed response with the `erro` flag, and a
parsed response with an empty city field each become a 404
`can not find zipcode` response; a transport error and a body that fails to
read or parse become a 500 response; otherwise the city field is returned
as the success value. -/
theorem C6_geo_classification (cep : String) (o : GeoOutcome)
    (h : (stripCEP cep).utf8ByteSize = 8) :
    geoClass (GetCityByCEP cep o) = geoSpecClass o := by
  unfold GetCityByCEP geoSpecClass
  rcases o with m | m | ⟨status, body⟩
  · simp [h, geoClass, handleCEPError]
  · simp [h, geoClass, handleCEPError]
  · by_cases hs : status = 200
    · subst hs
      rcases body with m | m | ⟨erro, city⟩
      · simp [h, geoClass, handleCEPError]
      · simp [h, geoClass, handleCEPError]
      · rcases erro with _ | _
        · by_cases hc : city = "" <;> simp [h, hc, geoClass, handleCEPError]
        · simp [h, geoClass, handleCEPError]
    · simp [h, hs, geoClass, handleCEPError]

/-- C6 witness: the classification theorem applied at a concrete validated
code and a concrete successful geocoding response. -/
theorem C6_witness :
    (stripCEP "01001-000").utf8ByteSize = 8 ∧
    geoClass (GetCityByCEP "01001-000" (.response 200 (.parsed false "Sao Paulo"))) =
      geoSpecClass (.response 200 (.parsed false "Sao Paulo")) :=
  ⟨by decide, C6_geo_classification "01001-000" _ (by decide)⟩

/-! ## Claim C8 -/

/-- C8, confirmed.  With the weather API key unset (empty environment
variable), `GetTemperature` fails with `ErrAPIKeyNotConfigured` — mapped by
the handler to a 500 response — and performs zero `client.Do` calls,
whatever the network would have answered. -/
theorem C8_missing_key_no_network_call (b : Nat → AttemptOutcome) :
    GetTemperature "" b = (.err .apiKeyNotConfigured, 0) ∧
    handleWeatherError .apiKeyNotConfigured =
      (500, "weather service configuration error") := by
  exact ⟨by simp [GetTemperature], rfl⟩

/-! ## Claim C9 -/

/-- C9, confirmed.  For every validated postal code the edge forwards: a
transport-level failure of the call to svc-b produces a 500 JSON-error
response, and a received response is relayed with byte-for-byte identical
body and identical status code, whatever they are. -/
theorem C9_edge_relays_verbatim (cep : String) (o : CallBOutcome)
    (hv : isValidCEP cep = true) :
    (o.isTransportFailure = true →
      (HandleWeatherRequest cep o).1 = 500 ∧
      ∃ m, (HandleWeatherRequest cep o).2 = .jsonError m) ∧
    (∀ status body, o = .response status body →
      HandleWeatherRequest cep o = (status, .bytes body)) := by
  constructor
  · intro ht
    rcases o with m | m | m | m | ⟨s, b⟩
    · simp [HandleWeatherRequest, hv, callServiceB]
    · simp [HandleWeatherRequest, hv, callServiceB]
    · simp [HandleWeatherRequest, hv, callServiceB]
    · simp [HandleWeatherRequest, hv, callServiceB]
    · simp [CallBOutcome.isTransportFailure] at ht
  · rintro status body rfl
    simp [HandleWeatherRequest, hv, callServiceB]

/-- C9 witness: the relay theorem applied at a concrete validated code and
a concrete svc-b response. -/
theorem C9_witness :
    isValidCEP "12345678" = true ∧
    HandleWeatherRequest "12345678" (.response 404 "notfoundbody") =
      (404, .bytes "notfoundbody") :=
  ⟨by decide,
    (C9_edge_relays_verbatim "12345678" _ (by decide)).2 404 "notfoundbody" rfl⟩

/-! ## Retry loop lemmas -/

/-- The outer `err` variable is never written by any loop iteration: the
`err` assigned inside the body is the shadowed one. -/
theorem retryLoop_errOuter (b : Nat → AttemptOutcome) (fuel : Nat) :
    ∀ attempt resp e calls,
      (retryLoop b fuel attempt resp e calls).2.1 = e := by
  induction fuel with
  | zero => intro attempt resp e calls; rfl
  | succ n ih =>
    intro attempt resp e calls
    unfold retryLoop
    cases b attempt with
    | reqError m => exact ih _ _ _ _
    | doError m => exact ih _ _ _ _
    | doResp r => rfl

/-- After the loop, the outer `err` is still nil. -/
theorem weatherLoop_errOuter (b : Nat → AttemptOutcome) :
    (weatherLoop b).2.1 = none :=
  retryLoop_errOuter b maxRetries 1 none none 0

/-- The loop adds at most `fuel` `client.Do` calls to the running count. -/
theorem retryLoop_calls_le (b : Nat → AttemptOutcome) (fuel : Nat) :
    ∀ attempt resp e calls,
      (retryLoop b fuel attempt resp e calls).2.2 ≤ calls + fuel := by
  induction fuel with
  | zero => intro attempt resp e calls; simp [retryLoop]
  | succ n ih =>
    intro attempt resp e calls
    unfold retryLoop
    cases b attempt with
    | reqError m => exact le_trans (ih _ _ _ _) (by omega)
    | doError m => exact le_trans (ih _ _ _ _) (by omega)
    | doResp r => simp

/-- The `client.Do` call count reported by `GetTemperature` is 0 without an
API key and the loop's count otherwise. -/
theorem GetTemperature_calls (key : String) (b : Nat → AttemptOutcome) :
    (GetTemperature key b).2 =
      if key = "" then 0 else (weatherLoop b).2.2 := by
  unfold GetTemperature
  by_cases hk : key = ""
  · simp [hk]
  · rw [if_neg hk, if_neg hk]
    rcases weatherLoop b with ⟨resp, e, calls⟩
    rcases e with _ | m
    · rcases resp with _ | r
      · rfl
      · rcases r with ⟨status, body⟩
        rcases body with m | w
        · rfl
        · dsimp only
          split
          · split <;> rfl
          · rfl
    · rfl

/-- An attempt outcome that does not deliver a response is a request
construction failure or a send failure. -/
theorem notResp_elim (a : AttemptOutcome) (h : a.isResp = false) :
    (∃ m, a = .reqError m) ∨ (∃ m, a = .doError m) := by
  cases a <;> simp [AttemptOutcome.isResp] at h ⊢

/-! ## Claim C3 -/

/-- C3, code bug.  The claim (and the source's own dead
`return nil, fmt.Errorf("all weather API requests failed: %w", err)` line)
expects that when all 3 attempts fail at transport level the function
returns an error wrapping the last transport error.  In the source,
`req, err := http.NewRequestWithContext(...)` re-declares `err` inside the
loop body, so `resp, err = s.client.Do(req)` writes the shadowed variable
and the outer `err` consulted after the loop stays nil: the error return is
unreachable, and `defer resp.Body.Close()` dereferences the nil `resp`.
Concretely, with a key configured and `client.Do` failing on all three
attempts, the embedded function panics after exactly 3 calls instead of
returning the wrapped error; the second conjunct is the shadowing invariant
(the outer `err` is nil after the loop for every behaviour). -/
theorem C3_transport_exhaustion_panics :
    GetTemperature "k" (fun _ => .doError "connection refused") =
      (.panicked, 3) ∧
    ∀ b : Nat → AttemptOutcome, (weatherLoop b).2.1 = none :=
  ⟨rfl, weatherLoop_errOuter⟩

/-! ## Claim C4 -/

/-- C4, confirmed.  In every `GetTemperature` invocation the upstream HTTP
client is invoked at most 3 times; and whenever attempt `i ≤ 3` delivers a
response after only transport-level failures, the loop ends with that
response and its entire result is insensitive to the behaviour of later
attempts (no further attempt is ever made) — a retry can therefore only
follow a transport-level failure, and a received response, whatever its
status code, ends the loop. -/
theorem C4_retry_policy (key : String) (b : Nat → AttemptOutcome) :
    (GetTemperature key b).2 ≤ 3 ∧
    ∀ i r, 1 ≤ i → i ≤ 3 → b i = .doResp r →
      (∀ j, 1 ≤ j → j < i → (b j).isResp = false) →
      (weatherLoop b).1 = some r ∧
      ∀ b' : Nat → AttemptOutcome, (∀ j, 1 ≤ j → j ≤ i → b' j = b j) →
        weatherLoop b' = weatherLoop b := by
  constructor
  · rw [GetTemperature_calls]
    by_cases hk : key = ""
    · simp [hk]
    · rw [if_neg hk]
      have h := retryLoop_calls_le b maxRetries 1 none none 0
      simpa [weatherLoop, maxRetries] using h
  · intro i r h1 h3 hbi hprev
    interval_cases i
    · refine ⟨by simp [weatherLoop, maxRetries, retryLoop, hbi], ?_⟩
      intro b' hb'
      have f1 : b' 1 = b 1 := hb' 1 (by omega) (by omega)
      simp [weatherLoop, maxRetries, retryLoop, f1, hbi]
    · have h1' := hprev 1 (by omega) (by omega)
      obtain ⟨m1, e1⟩ | ⟨m1, e1⟩ := notResp_elim _ h1' <;>
        (refine ⟨by simp [weatherLoop, maxRetries, retryLoop, e1, hbi], ?_⟩
         intro b' hb'
         have f1 : b' 1 = b 1 := hb' 1 (by omega) (by omega)
         have f2 : b' 2 = b 2 := hb' 2 (by omega) (by omega)
         simp [weatherLoop, maxRetries, retryLoop, f1, f2, e1, hbi])
    · have h1' := hprev 1 (by omega) (by omega)
      have h2' := hprev 2 (by omega) (by omega)
      obtain ⟨m1, e1⟩ | ⟨m1, e1⟩ := notResp_elim _ h1' <;>
        obtain ⟨m2, e2⟩ | ⟨m2, e2⟩ := notResp_elim _ h2' <;>
        (refine ⟨by simp [weatherLoop, maxRetries, retryLoop, e1, e2, hbi], ?_⟩
         intro b' hb'
         have f1 : b' 1 = b 1 := hb' 1 (by omega) (by omega)
         have f2 : b' 2 = b 2 := hb' 2 (by omega) (by omega)
         have f3 : b' 3 = b 3 := hb' 3 (by omega) (by omega)
         simp [weatherLoop, maxRetries, retryLoop, f1, f2, f3, e1, e2, hbi])

/-- C4 witness: the retry-policy theorem applied at a concrete behaviour
whose second attempt delivers a response after one send failure. -/
theorem C4_witness :
    ((fun j => if j = 1 then AttemptOutcome.doError "refused"
               else .doResp ⟨200, .decodeError "x"⟩) 2 =
        AttemptOutcome.doResp ⟨200, .decodeError "x"⟩) ∧
    (weatherLoop (fun j => if j = 1 then AttemptOutcome.doError "refused"
               else .doResp ⟨200, .decodeError "x"⟩)).1 =
      some ⟨200, .decodeError "x"⟩ := by
  refine ⟨rfl, ?_⟩
  refine ((C4_retry_policy "k" _).2 2 _ (by omega) (by omega) rfl ?_).1
  intro j hj1 hj2
  have : j = 1 := by omega
  subst this
  rfl

/-! ## Weather response helper lemmas -/

/-- With a configured key and a response delivered by the loop,
`GetTemperature` classifies exactly that response: decode failure, then the
status check, the 1006 code check, and the success path with the
Fahrenheit-trusting derivation. -/
theorem GetTemperature_of_resp (key : String) (b : Nat → AttemptOutcome)
    (r : WeatherResp) (hk : key ≠ "") (hr : (weatherLoop b).1 = some r) :
    (GetTemperature key b).1 =
      match r.body with
      | .decodeError m => .err (.decodeFailed m)
      | .decoded w =>
        if r.statusCode ≠ 200 then
          if w.errCode = 1006 then .err .cityNotFound
          else .err (.weatherAPIFailed w.errMsg)
        else
          .ok ⟨round w.tempC 2,
               round (if w.tempF ≠ 0 then w.tempF else w.tempC * 1.8 + 32) 2,
               round (w.tempC + 273.15) 2⟩ := by
  unfold GetTemperature
  rw [if_neg hk]
  have he := weatherLoop_errOuter b
  rcases hw : weatherLoop b with ⟨resp, e, calls⟩
  rw [hw] at he hr
  dsimp at he hr
  subst he
  subst hr
  rcases r with ⟨status, body⟩
  rcases body with m | w
  · rfl
  · dsimp only
    split
    · split <;> rfl
    · rfl

/-- On non-negative arguments Go's `int` conversion is the floor. -/
theorem goTrunc_of_nonneg (q : ℚ) (h : 0 ≤ q) : goTrunc q = ⌊q⌋ := by
  unfold goTrunc
  rw [if_pos h]

/-- The 2-decimal-place instance of the source's rounding, with the factor
loop evaluated. -/
theorem round_two (x : ℚ) :
    round x 2 = (goTrunc (x * 100 + 1 / 2) : ℚ) / 100 := by
  have hg : goFactor 2 = 100 := by norm_num [goFactor]
  have h05 : (0.5 : ℚ) = 1 / 2 := by norm_num
  simp only [round, hg, h05]

/-- Whenever the scaled value `x*100 + 1/2` is non-negative the source's
rounding is the floor-based form. -/
theorem round_two_of_nonneg (x : ℚ) (h : 0 ≤ 100 * x + 1 / 2) :
    round x 2 = (⌊x * 100 + 1 / 2⌋ : ℚ) / 100 := by
  rw [round_two, goTrunc_of_nonneg _ (by linarith)]

/-- Whenever the scaled value is non-negative the source's rounding agrees
with round-half-up to 2 decimal places. -/
theorem round_eq_roundHalfUp (x : ℚ) (h : 0 ≤ 100 * x + 1 / 2) :
    round x 2 = roundHalfUp x := by
  rw [round_two_of_nonneg x h, roundHalfUp]

/-- For non-negative scaled Celsius, rounding commutes with the Kelvin
shift: rounding `c + 273.15` equals rounding `round c 2 + 273.15`. -/
theorem round_shift_of_nonneg (c : ℚ) (h : 0 ≤ 100 * c + 1 / 2) :
    round (c + 273.15) 2 = round (round c 2 + 273.15) 2 := by
  have hy : (0 : ℚ) ≤ c * 100 + 1 / 2 := by linarith
  have hn : (0 : ℤ) ≤ ⌊c * 100 + 1 / 2⌋ := Int.floor_nonneg.mpr hy
  have hrc : round c 2 = (⌊c * 100 + 1 / 2⌋ : ℚ) / 100 := round_two_of_nonneg c h
  set n : ℤ := ⌊c * 100 + 1 / 2⌋ with hndef
  have hnq : (0 : ℚ) ≤ (n : ℚ) := by exact_mod_cast hn
  have lhs : round (c + 273.15) 2 = ((n + 27315 : ℤ) : ℚ) / 100 := by
    rw [round_two_of_nonneg _ (by linarith)]
    have harg : (c + 273.15) * 100 + 1 / 2 =
        (c * 100 + 1 / 2) + (27315 : ℤ) := by
      push_cast
      ring
    rw [harg, Int.floor_add_int]
  have rhs : round ((n : ℚ) / 100 + 273.15) 2 = ((n + 27315 : ℤ) : ℚ) / 100 := by
    rw [round_two_of_nonneg _ (by linarith)]
    have harg : ((n : ℚ) / 100 + 273.15) * 100 + 1 / 2 =
        1 / 2 + ((n + 27315 : ℤ) : ℚ) := by
      push_cast
      ring
    rw [harg, Int.floor_add_int]
    norm_num
  rw [lhs, hrc, rhs]

/-! ## Claim C5 -/

/-- C5, counterexample.  The claim says the derivations are rounded with
round-half-up to 2 decimal places.  At upstream Celsius `-21.26` with no
upstream Fahrenheit, the derived Fahrenheit is `-21.26*1.8+32 = -6.268`;
round-half-up gives `-6.27`, but the source's
`float64(int(num*factor+0.5))/factor` truncates toward zero and returns
`-6.26` in the success payload. -/
theorem C5_counterexample :
    (GetTemperature "k" (fun _ => .doResp ⟨200, .decoded ⟨-21.26, 0, 0, ""⟩⟩)).1 =
      .ok ⟨-21.25, -6.26, 251.89⟩ ∧
    roundHalfUp (-21.26 * 1.8 + 32) = -6.27 ∧
    (-6.26 : ℚ) ≠ -6.27 := by
  refine ⟨?_, by norm_num [roundHalfUp], by norm_num⟩
  rw [GetTemperature_of_resp "k" (fun _ => .doResp ⟨200, .decoded ⟨-21.26, 0, 0, ""⟩⟩)
    ⟨200, .decoded ⟨-21.26, 0, 0, ""⟩⟩ (by decide) rfl]
  norm_num [round, goTrunc, goFactor]

/-- C5, amended.  For a successful weather response with Celsius `c`: when
the upstream supplies no Fahrenheit value (`temp_f` decodes to 0), the
returned payload is `round(c, 2)`, `round(c*1.8+32, 2)`, `round(c+273.15,
2)`; when the upstream supplies a non-zero Fahrenheit `f`, that value is
only rounded and not re-derived.  `round` here is the source's
truncation-toward-zero scheme `float64(int(x*100+0.5))/100`, which agrees
with round-half-up exactly on arguments whose scaled value `100*x + 1/2` is
non-negative — for negative arguments beyond that bound the two differ (see
the C5 counterexample). -/
theorem C5_derived_units (key : String) (c : ℚ) (code : Int) (msg : String)
    (hk : key ≠ "") :
    ((GetTemperature key (fun _ => .doResp ⟨200, .decoded ⟨c, 0, code, msg⟩⟩)).1 =
      .ok ⟨round c 2, round (c * 1.8 + 32) 2, round (c + 273.15) 2⟩) ∧
    (∀ f : ℚ, f ≠ 0 →
      (GetTemperature key (fun _ => .doResp ⟨200, .decoded ⟨c, f, code, msg⟩⟩)).1 =
        .ok ⟨round c 2, round f 2, round (c + 273.15) 2⟩) ∧
    (∀ x : ℚ, 0 ≤ 100 * x + 1 / 2 → round x 2 = roundHalfUp x) := by
  refine ⟨?_, ?_, fun x hx => round_eq_roundHalfUp x hx⟩
  · rw [GetTemperature_of_resp key (fun _ => .doResp ⟨200, .decoded ⟨c, 0, code, msg⟩⟩)
      ⟨200, .decoded ⟨c, 0, code, msg⟩⟩ hk rfl]
    norm_num
  · intro f hf
    rw [GetTemperature_of_resp key (fun _ => .doResp ⟨200, .decoded ⟨c, f, code, msg⟩⟩)
      ⟨200, .decoded ⟨c, f, code, msg⟩⟩ hk rfl]
    simp [hf]

/-- C5 witness: the amended derivation theorem applied at Celsius 25 with
no upstream Fahrenheit, at Celsius 25 with trusted upstream Fahrenheit 100,
and the half-up agreement applied at 3.14159. -/
theorem C5_witness :
    ("k" : String) ≠ "" ∧
    (GetTemperature "k" (fun _ => .doResp ⟨200, .decoded ⟨25, 0, 0, ""⟩⟩)).1 =
      .ok ⟨round 25 2, round (25 * 1.8 + 32) 2, round (25 + 273.15) 2⟩ ∧
    (GetTemperature "k" (fun _ => .doResp ⟨200, .decoded ⟨25, 100, 0, ""⟩⟩)).1 =
      .ok ⟨round 25 2, round 100 2, round (25 + 273.15) 2⟩ ∧
    round 3.14159 2 = roundHalfUp 3.14159 := by
  obtain ⟨h1, h2, h3⟩ := C5_derived_units "k" 25 0 "" (by decide)
  exact ⟨by decide, h1, h2 100 (by norm_num), h3 3.14159 (by norm_num)⟩

/-! ## Claim C7 -/

/-- C7, confirmed.  Once a response is received and its body decodes,
`GetTemperature` returns `ErrCityNotFound` (mapped by the handler to a 404
response) exactly when the response has a non-success status and carries
upstream error code 1006, and for any other non-success status it returns
`ErrWeatherAPIFailed` wrapping the upstream's message (mapped by the
handler to a 500 response). -/
theorem C7_response_classification (key : String) (b : Nat → AttemptOutcome)
    (r : WeatherResp) (w : WeatherAPIResponse) (hk : key ≠ "")
    (hr : (weatherLoop b).1 = some r) (hw : r.body = .decoded w) :
    ((GetTemperature key b).1 = .err .cityNotFound ↔
      r.statusCode ≠ 200 ∧ w.errCode = 1006) ∧
    (r.statusCode ≠ 200 → w.errCode ≠ 1006 →
      (GetTemperature key b).1 = .err (.weatherAPIFailed w.errMsg)) ∧
    handleWeatherError .cityNotFound =
      (404, "city not found in weather service") ∧
    ∀ m, handleWeatherError (.weatherAPIFailed m) =
      (500, "failed to get weather data") := by
  have hres := GetTemperature_of_resp key b r hk hr
  rw [hw] at hres
  dsimp only at hres
  rw [hres]
  refine ⟨?_, ?_, rfl, fun m => rfl⟩
  · by_cases hs : r.statusCode = 200
    · simp [hs]
    · by_cases hc : w.errCode = 1006
      · simp [hs, hc]
      · simp [hs, hc]
  · intro hs hc
    rw [if_pos hs, if_neg hc]

/-- C7 witness: the classification theorem applied at a concrete 400
response carrying error code 1006, concluding `ErrCityNotFound`. -/
theorem C7_witness :
    ("k" : String) ≠ "" ∧
    (GetTemperature "k"
      (fun _ => .doResp ⟨400, .decoded ⟨0, 0, 1006, "no match"⟩⟩)).1 =
        .err .cityNotFound := by
  refine ⟨by decide, ?_⟩
  exact ((C7_response_classification "k"
      (fun _ => .doResp ⟨400, .decoded ⟨0, 0, 1006, "no match"⟩⟩)
      ⟨400, .decoded ⟨0, 0, 1006, "no match"⟩⟩ ⟨0, 0, 1006, "no match"⟩
      (by decide) rfl rfl).1).mpr ⟨by decide, rfl⟩

/-! ## Claim C10 -/

/-- C10, counterexample.  The claim says `TempK = round(TempC + 273.15, 2)`
always holds of the success payload.  At upstream Celsius `-1.25` the
payload is `TempC = -1.24` (truncation toward zero), `TempK = 271.90`
(from the raw Celsius), while `round(TempC + 273.15, 2) = round(271.91, 2) =
271.91 ≠ 271.90`. -/
theorem C10_counterexample :
    (GetTemperature "k" (fun _ => .doResp ⟨200, .decoded ⟨-1.25, 0, 0, ""⟩⟩)).1 =
      .ok ⟨-1.24, 29.75, 271.90⟩ ∧
    round ((-1.24 : ℚ) + 273.15) 2 = 271.91 ∧
    (271.90 : ℚ) ≠ 271.91 := by
  refine ⟨?_, by norm_num [round, goTrunc, goFactor], by norm_num⟩
  rw [GetTemperature_of_resp "k" (fun _ => .doResp ⟨200, .decoded ⟨-1.25, 0, 0, ""⟩⟩)
    ⟨200, .decoded ⟨-1.25, 0, 0, ""⟩⟩ (by decide) rfl]
  norm_num [round, goTrunc, goFactor]

/-- C10, amended.  In every success payload `TempK` is derived from the RAW
upstream Celsius `c` as `round(c + 273.15, 2)` (also when a non-zero
upstream Fahrenheit is trusted), and `TempC = round(c, 2)`; the payload can
carry a `TempF` inconsistent with `TempC`; the identity
`TempK = round(TempC + 273.15, 2)` stated over the rounded payload field
holds whenever `100*c + 1/2` is non-negative but not in general (see the
C10 counterexample). -/
theorem C10_tempK_raw_celsius (key : String) (c f : ℚ) (code : Int)
    (msg : String) (hk : key ≠ "") :
    (∃ t : Temperature,
      (GetTemperature key (fun _ => .doResp ⟨200, .decoded ⟨c, f, code, msg⟩⟩)).1 =
        .ok t ∧
      t.tempC = round c 2 ∧
      t.tempK = round (c + 273.15) 2 ∧
      (0 ≤ 100 * c + 1 / 2 → t.tempK = round (t.tempC + 273.15) 2)) ∧
    ((GetTemperature "k" (fun _ => .doResp ⟨200, .decoded ⟨25, 100, 0, ""⟩⟩)).1 =
      .ok ⟨25, 100, 298.15⟩ ∧
    (100 : ℚ) ≠ round ((25 : ℚ) * 1.8 + 32) 2) := by
  constructor
  · refine ⟨⟨round c 2, round (if f ≠ 0 then f else c * 1.8 + 32) 2,
      round (c + 273.15) 2⟩, ?_, rfl, rfl, fun hc => round_shift_of_nonneg c hc⟩
    rw [GetTemperature_of_resp key (fun _ => .doResp ⟨200, .decoded ⟨c, f, code, msg⟩⟩)
      ⟨200, .decoded ⟨c, f, code, msg⟩⟩ hk rfl]
    norm_num
  · refine ⟨?_, by norm_num [round, goTrunc, goFactor]⟩
    rw [GetTemperature_of_resp "k" (fun _ => .doResp ⟨200, .decoded ⟨25, 100, 0, ""⟩⟩)
      ⟨200, .decoded ⟨25, 100, 0, ""⟩⟩ (by decide) rfl]
    norm_num [round, goTrunc, goFactor]

/-- C10 witness: the amended invariant applied at Celsius 25 (non-negative
scaled value, so the payload-field identity also holds). -/
theorem C10_witness :
    ("k" : String) ≠ "" ∧
    ∃ t : Temperature,
      (GetTemperature "k" (fun _ => .doResp ⟨200, .decoded ⟨25, 7, 0, ""⟩⟩)).1 =
        .ok t ∧
      t.tempK = round ((25 : ℚ) + 273.15) 2 ∧
      t.tempK = round (t.tempC + 273.15) 2 := by
  obtain ⟨⟨t, h1, _, h3, h4⟩, _⟩ :=
    C10_tempK_raw_celsius "k" 25 7 0 "" (by decide)
  exact ⟨by decide, t, h1, h3, h4 (by norm_num)⟩

end OtelGo
